import Mathlib

/-!
Shallow embedding of the text-metrics pipeline of this repository
(`src/text_analysis.py`, the lexicon variant, and `src/txt_analysis_berts.py`,
the model variant).  Strings are modelled as Lean `String` (a list of
characters); Python floats are modelled as exact rationals; the regular
expressions of the source are modelled by equivalent character-level
scanners restricted to ASCII character classes.
-/

namespace TextAnalysis

/-- ASCII model of the regex class `\w` used by `\b\w+\b`:
letters, digits and the underscore. -/
def isWordChar (c : Char) : Bool :=
  decide ((48 ≤ c.toNat ∧ c.toNat ≤ 57) ∨ (65 ≤ c.toNat ∧ c.toNat ≤ 90) ∨
    (97 ≤ c.toNat ∧ c.toNat ≤ 122) ∨ c.toNat = 95)

/-- ASCII model of an alphanumeric character, as tested by Python
`str.isalnum` (letters and digits, no underscore). -/
def isAlnumChar (c : Char) : Bool :=
  decide ((48 ≤ c.toNat ∧ c.toNat ≤ 57) ∨ (65 ≤ c.toNat ∧ c.toNat ≤ 90) ∨
    (97 ≤ c.toNat ∧ c.toNat ≤ 122))

/-- The regex class `[A-Z]` (the lookahead of the sentence splitter). -/
def isUpperAZ (c : Char) : Bool :=
  decide (65 ≤ c.toNat ∧ c.toNat ≤ 90)

/-- ASCII model of the regex class `\s` and of the characters removed by
Python `str.strip`: space, tab, newline, vertical tab, form feed,
carriage return. -/
def isSpaceChar (c : Char) : Bool :=
  decide (c.toNat = 32 ∨ c.toNat = 9 ∨ c.toNat = 10 ∨ c.toNat = 11 ∨
    c.toNat = 12 ∨ c.toNat = 13)

/-- The regex class `[.!?]` of sentence-terminal punctuation. -/
def isPunctChar (c : Char) : Bool :=
  c = '.' || c = '!' || c = '?'

/-- The regex class `[aeiouy]` used by `syllable_count`. -/
def isVowelY (c : Char) : Bool :=
  c = 'a' || c = 'e' || c = 'i' || c = 'o' || c = 'u' || c = 'y'

/-- Maximal runs of word characters: the matches of `\b\w+\b` in a
character list, in order.  `acc` holds the current run, reversed. -/
def wordRunsGo (acc : List Char) : List Char → List (List Char)
  | [] => if acc.isEmpty then [] else [acc.reverse]
  | c :: cs =>
    if isWordChar c then wordRunsGo (c :: acc) cs
    else if acc.isEmpty then wordRunsGo [] cs
    else acc.reverse :: wordRunsGo [] cs

/-- The matches of `\b\w+\b` in a character list. -/
def wordRuns (l : List Char) : List (List Char) :=
  wordRunsGo [] l

/-- `simple_word_tokenize(text)`: `re.findall(r'\b\w+\b', text.lower())`.
Lower-case the text, then take the maximal runs of word characters. -/
def simple_word_tokenize (text : String) : List String :=
  (wordRuns (text.data.map Char.toLower)).map String.mk

/-- A match of the separator regex `[.!?]+\s+(?=[A-Z])` starting at the
head of the list: one or more punctuation characters, then one or more
whitespace characters, with an `[A-Z]` lookahead.  Returns the remainder
after the consumed separator, or `none` when no match starts here. -/
def sepMatch (l : List Char) : Option (List Char) :=
  let ps := l.takeWhile isPunctChar
  let r1 := l.dropWhile isPunctChar
  if ps.isEmpty then none
  else
    let ss := r1.takeWhile isSpaceChar
    let r2 := r1.dropWhile isSpaceChar
    if ss.isEmpty then none
    else
      match r2 with
      | [] => none
      | c :: _ => if isUpperAZ c then some r2 else none

/-- The pieces of `re.split(r'[.!?]+\s+(?=[A-Z])', text)`: scan left to
right, cutting at each separator match.  `fuel` bounds the recursion; any
fuel of at least the length of the list gives the scan's true result. -/
def splitSentencesGo : Nat → List Char → List Char → List (List Char)
  | _, acc, [] => [acc.reverse]
  | 0, acc, l => [acc.reverse ++ l]
  | fuel + 1, acc, c :: cs =>
    match sepMatch (c :: cs) with
    | some rest => acc.reverse :: splitSentencesGo fuel [] rest
    | none => splitSentencesGo fuel (c :: acc) cs

/-- Python `str.strip` on a character list (both ends). -/
def stripChars (l : List Char) : List Char :=
  ((l.dropWhile isSpaceChar).reverse.dropWhile isSpaceChar).reverse

/-- `simple_sentence_tokenize(text)`: split on `[.!?]+\s+(?=[A-Z])`, strip
each piece, and keep the non-empty ones. -/
def simple_sentence_tokenize (text : String) : List String :=
  ((splitSentencesGo text.data.length [] text.data).map
    (fun l => String.mk (stripChars l))).filter (fun s => s ≠ "")

/-- `syllable_count(word)`: lower-case the word, count the characters
matching `[aeiouy]`, subtract 1 when the lowered word ends in "es" or
"ed", and floor the result at 1. -/
def endsEsEd (l : List Char) : Bool :=
  match l.reverse with
  | 's' :: 'e' :: _ => true
  | 'd' :: 'e' :: _ => true
  | _ => false

def syllable_count (w : String) : ℤ :=
  let wl := w.data.map Char.toLower
  let count : ℤ := (wl.countP isVowelY : ℕ)
  max 1 (if endsEsEd wl then count - 1 else count)

/-- `avg_syllable_per_word(words)` of the lexicon variant: 0 on the empty
list, otherwise the mean of the syllable counts. -/
def avg_syllable_per_word (words : List String) : ℚ :=
  if words.isEmpty then 0
  else ((words.map syllable_count).sum : ℚ) / (words.length : ℚ)

/-- Python `str.isalnum`: non-empty and every character alphanumeric. -/
def pyIsAlnum (s : String) : Bool :=
  !s.data.isEmpty && s.data.all isAlnumChar

/-- The three word sets of the lexicon variant (`stop_words`,
`positive_words`, `negative_words`), loaded once per run; membership is
the only operation used. -/
structure Lexicon where
  stop : List String
  positive : List String
  negative : List String

/-- The cleaned token list of the lexicon variant:
`[word for word in words if word.isalnum() and word not in stop_words]`. -/
def cleaned_words (lex : Lexicon) (text : String) : List String :=
  (simple_word_tokenize text).filter
    (fun w => pyIsAlnum w && !lex.stop.contains w)

/-- The cleaned token list of the model variant:
`[word for word in words if word.isalnum()]` (no stopword filter). -/
def cleaned_words_bert (text : String) : List String :=
  (simple_word_tokenize text).filter (fun w => pyIsAlnum w)

/-- `len(re.findall(r'\b(I|we|my|ours|us)\b', text, re.I))`: the maximal
word-character runs of the original text whose lower-casing is one of
the five pronouns. -/
def personal_pronoun_count (text : String) : ℕ :=
  (wordRuns text.data).countP
    (fun t => [String.mk ['i'], String.mk ['w', 'e'], String.mk ['m', 'y'],
      String.mk ['o', 'u', 'r', 's'],
      String.mk ['u', 's']].contains (String.mk (t.map Char.toLower)))

/-- The constant `0.000001` of the source, as an exact rational. -/
def eps : ℚ := 1 / 1000000

/-- `get_bert_sentiment`, with the pretrained classifier's 5-way softmax
distribution over star ratings (an external collaborator in the source)
passed in as `probs`; index 0 is 1 star, index 4 is 5 stars.  Positive
mass is classes 4-5, negative is classes 1-2, neutral is class 3; the
compound score divides by the total mass, and the `except` handler of the
source turns the zero-denominator error into `(0, 0, 0)`. -/
def get_bert_sentiment (probs : Fin 5 → ℚ) : ℚ × ℚ × ℚ :=
  let positive_score := probs 3 + probs 4
  let negative_score := probs 0 + probs 1
  let neutral_score := probs 2
  if positive_score + negative_score + neutral_score = 0 then (0, 0, 0)
  else (positive_score, negative_score,
    (positive_score - negative_score) /
      (positive_score + negative_score + neutral_score))

/-- The 13-entry score vector of the lexicon variant's non-degenerate
path, in the order returned by `calculate_scores`. -/
def scores_vector (lex : Lexicon) (text : String) : List ℚ :=
  let cw := cleaned_words lex text
  let sentences := simple_sentence_tokenize text
  let positive_score : ℕ := cw.countP (fun w => lex.positive.contains w)
  let negative_score : ℕ := cw.countP (fun w => lex.negative.contains w)
  let polarity_score : ℚ :=
    ((positive_score : ℚ) - (negative_score : ℚ)) /
      (((positive_score : ℚ) + (negative_score : ℚ)) + eps)
  let subjectivity_score : ℚ :=
    ((positive_score : ℚ) + (negative_score : ℚ)) / ((cw.length : ℚ) + eps)
  let avg_sentence_length : ℚ := (cw.length : ℚ) / (sentences.length : ℚ)
  let complex_words := cw.filter (fun w => 2 < syllable_count w)
  let percentage_complex_words : ℚ :=
    (complex_words.length : ℚ) / (cw.length : ℚ)
  let fog_index : ℚ := (2 / 5) * (avg_sentence_length + percentage_complex_words)
  let word_count : ℕ := cw.length
  let avg_word_length : ℚ :=
    ((cw.map String.length).sum : ℚ) / (cw.length : ℚ)
  [(positive_score : ℚ), (negative_score : ℚ), polarity_score,
    subjectivity_score, avg_sentence_length, percentage_complex_words,
    fog_index, avg_sentence_length, (complex_words.length : ℚ),
    (word_count : ℚ), avg_syllable_per_word cw,
    (personal_pronoun_count text : ℚ), avg_word_length]

/-- `calculate_scores(text)` of `src/text_analysis.py`: tokenize, clean,
split sentences; on an empty cleaned-token list or empty sentence list
return `[0] * 13`, otherwise the 13 metrics. -/
def calculate_scores (lex : Lexicon) (text : String) : List ℚ :=
  if cleaned_words lex text = [] ∨ simple_sentence_tokenize text = [] then
    List.replicate 13 0
  else scores_vector lex text

/-- The 13-entry score vector of the model variant's non-degenerate path:
the first four fields come from the classifier's remapped output
(`subjectivity = |compound|`), the rest are the same readability metrics
computed on the unfiltered alphanumeric tokens. -/
def scores_vector_bert (probsOf : String → Fin 5 → ℚ) (text : String) :
    List ℚ :=
  let cw := cleaned_words_bert text
  let sentences := simple_sentence_tokenize text
  let s := get_bert_sentiment (probsOf text)
  let positive_score := s.1
  let negative_score := s.2.1
  let polarity_score := s.2.2
  let subjectivity_score : ℚ := |polarity_score|
  let avg_sentence_length : ℚ := (cw.length : ℚ) / (sentences.length : ℚ)
  let complex_words := cw.filter (fun w => 2 < syllable_count w)
  let percentage_complex_words : ℚ :=
    (complex_words.length : ℚ) / (cw.length : ℚ)
  let fog_index : ℚ := (2 / 5) * (avg_sentence_length + percentage_complex_words)
  let word_count : ℕ := cw.length
  let avg_word_length : ℚ :=
    ((cw.map String.length).sum : ℚ) / (cw.length : ℚ)
  let avg_syllables : ℚ :=
    ((cw.map syllable_count).sum : ℚ) / (cw.length : ℚ)
  [positive_score, negative_score, polarity_score, subjectivity_score,
    avg_sentence_length, percentage_complex_words, fog_index,
    avg_sentence_length, (complex_words.length : ℚ), (word_count : ℚ),
    avg_syllables, (personal_pronoun_count text : ℚ), avg_word_length]

/-- `calculate_scores(text)` of `src/txt_analysis_berts.py`, with the
classifier modelled as the parameter `probsOf`. -/
def calculate_scores_bert (probsOf : String → Fin 5 → ℚ) (text : String) :
    List ℚ :=
  if cleaned_words_bert text = [] ∨ simple_sentence_tokenize text = [] then
    List.replicate 13 0
  else scores_vector_bert probsOf text

/-- One iteration of the per-record loop of `main`: extract the article
text; an empty extraction yields the identifying columns followed by 13
nulls, otherwise the scorer's 13 values. -/
def process_record (score : String → List ℚ) (extract : String → String)
    (r : String × String) : String × String × List (Option ℚ) :=
  let article := extract r.2
  if article = "" then (r.1, r.2, List.replicate 13 none)
  else (r.1, r.2, (score article).map some)

/-- The per-record loop of `main`: each record is processed independently
and appended to the results, so a failed record never stops the batch. -/
def process_records (score : String → List ℚ) (extract : String → String)
    (rs : List (String × String)) : List (String × String × List (Option ℚ)) :=
  rs.map (process_record score extract)

theorem char_toNat_ofNat {n : Nat} (h : n.isValidChar) :
    (Char.ofNat n).toNat = n := by
  rw [Char.ofNat, dif_pos h]
  rfl

theorem isUpperAZ_toLower (c : Char) : isUpperAZ (Char.toLower c) = false := by
  unfold Char.toLower
  by_cases h : c.toNat ≥ 65 ∧ c.toNat ≤ 90
  · rw [if_pos h]
    have hv : (c.toNat + 32).isValidChar := Or.inl (by omega)
    unfold isUpperAZ
    rw [char_toNat_ofNat hv]
    simp only [decide_eq_false_iff_not]
    omega
  · rw [if_neg h]
    unfold isUpperAZ
    simp only [decide_eq_false_iff_not]
    omega

theorem wordRunsGo_forall (Q : Char → Prop) :
    ∀ (l acc : List Char), (∀ c ∈ l, isWordChar c = true → Q c) →
      (∀ c ∈ acc, Q c) →
      ∀ t ∈ wordRunsGo acc l, t ≠ [] ∧ ∀ c ∈ t, Q c := by
  intro l
  induction l with
  | nil =>
    intro acc _ hacc t ht
    unfold wordRunsGo at ht
    by_cases hne : acc.isEmpty
    · rw [if_pos hne] at ht
      simp at ht
    · rw [if_neg hne] at ht
      rcases List.mem_singleton.mp ht with rfl
      refine ⟨by simpa [List.isEmpty_iff] using hne, fun c hc => ?_⟩
      exact hacc c (List.mem_reverse.mp hc)
  | cons c cs ih =>
    intro acc hl hacc t ht
    unfold wordRunsGo at ht
    by_cases hw : isWordChar c = true
    · rw [if_pos hw] at ht
      refine ih (c :: acc) (fun d hd hwd => hl d (List.mem_cons_of_mem c hd) hwd)
        (fun d hd => ?_) t ht
      rcases List.mem_cons.mp hd with rfl | hd
      · exact hl d (List.mem_cons_self d cs) hw
      · exact hacc d hd
    · rw [if_neg hw] at ht
      by_cases hne : acc.isEmpty
      · rw [if_pos hne] at ht
        exact ih [] (fun d hd hwd => hl d (List.mem_cons_of_mem c hd) hwd)
          (fun d hd => absurd hd (List.not_mem_nil d)) t ht
      · rw [if_neg hne] at ht
        rcases List.mem_cons.mp ht with rfl | ht
        · refine ⟨by simpa [List.isEmpty_iff] using hne, fun d hd => ?_⟩
          exact hacc d (List.mem_reverse.mp hd)
        · exact ih [] (fun d hd hwd => hl d (List.mem_cons_of_mem c hd) hwd)
            (fun d hd => absurd hd (List.not_mem_nil d)) t ht

theorem eps_pos : (0 : ℚ) < eps := by norm_num [eps]

theorem calculate_scores_nondegenerate (lex : Lexicon) (text : String)
    (h1 : cleaned_words lex text ≠ []) (h2 : simple_sentence_tokenize text ≠ []) :
    calculate_scores lex text = scores_vector lex text := by
  unfold calculate_scores
  rw [if_neg]
  exact fun h => h.elim h1 h2

theorem calculate_scores_bert_nondegenerate (probsOf : String → Fin 5 → ℚ)
    (text : String) (h1 : cleaned_words_bert text ≠ [])
    (h2 : simple_sentence_tokenize text ≠ []) :
    calculate_scores_bert probsOf text = scores_vector_bert probsOf text := by
  unfold calculate_scores_bert
  rw [if_neg]
  exact fun h => h.elim h1 h2

/-- C1: for every input text, `calculate_scores` returns a vector of
length exactly 13 in both variants, on the normal path and on the
degenerate path alike (the exception fallback `[0] * 13` of the source
also has length 13, and the embedding of the arithmetic is total). -/
theorem claim1_score_vector_length_thirteen :
    (∀ (lex : Lexicon) (text : String), (calculate_scores lex text).length = 13) ∧
    (∀ (probsOf : String → Fin 5 → ℚ) (text : String),
      (calculate_scores_bert probsOf text).length = 13) := by
  constructor
  · intro lex text
    unfold calculate_scores
    by_cases h : cleaned_words lex text = [] ∨ simple_sentence_tokenize text = []
    · rw [if_pos h]
      simp
    · rw [if_neg h]
      rfl
  · intro probsOf text
    unfold calculate_scores_bert
    by_cases h : cleaned_words_bert text = [] ∨ simple_sentence_tokenize text = []
    · rw [if_pos h]
      simp
    · rw [if_neg h]
      rfl

/-- C2: when the cleaned token list or the sentence list is empty, both
variants of `calculate_scores` return the all-zero 13-vector; in
particular this holds for the empty text. -/
theorem claim2_degenerate_zero_vector :
    (∀ (lex : Lexicon) (text : String),
      cleaned_words lex text = [] ∨ simple_sentence_tokenize text = [] →
      calculate_scores lex text = List.replicate 13 0) ∧
    (∀ (probsOf : String → Fin 5 → ℚ) (text : String),
      cleaned_words_bert text = [] ∨ simple_sentence_tokenize text = [] →
      calculate_scores_bert probsOf text = List.replicate 13 0) ∧
    (∀ lex : Lexicon, calculate_scores lex "" = List.replicate 13 0) ∧
    (∀ probsOf : String → Fin 5 → ℚ,
      calculate_scores_bert probsOf "" = List.replicate 13 0) := by
  refine ⟨fun lex text h => ?_, fun probsOf text h => ?_, fun lex => ?_,
    fun probsOf => ?_⟩
  · unfold calculate_scores
    rw [if_pos h]
  · unfold calculate_scores_bert
    rw [if_pos h]
  · have h : cleaned_words lex "" = [] := rfl
    unfold calculate_scores
    rw [if_pos (Or.inl h)]
  · have h : cleaned_words_bert "" = [] := rfl
    unfold calculate_scores_bert
    rw [if_pos (Or.inl h)]

/-- Witness for C2 at the concrete empty text. -/
theorem claim2_witness :
    calculate_scores ⟨[], [], []⟩ "" = List.replicate 13 0 :=
  claim2_degenerate_zero_vector.1 ⟨[], [], []⟩ "" (Or.inl rfl)

/-- C3: `syllable_count` is the number of `[aeiouy]` characters of the
lower-cased word, minus 1 when the lowered word ends in "es" or "ed",
floored at 1; consequently it is at least 1 for every word. -/
theorem claim3_syllable_count_formula :
    ∀ w : String,
      syllable_count w =
        max 1 ((((w.data.map Char.toLower).filter isVowelY).length : ℤ) -
          (if endsEsEd (w.data.map Char.toLower) then 1 else 0)) ∧
      1 ≤ syllable_count w := by
  intro w
  constructor
  · simp only [syllable_count]
    rw [List.countP_eq_length_filter]
    by_cases h : endsEsEd (w.data.map Char.toLower) = true
    · rw [if_pos h, if_pos h]
    · rw [if_neg h, if_neg h]
      simp
  · simp only [syllable_count]
    exact le_max_left 1 _

/-- C4: in the lexicon variant, on the non-degenerate path, entry 2 of
the score vector is `(positive - negative) / (positive + negative + 1e-6)`
and entry 3 is `(positive + negative) / (cleanedTokenCount + 1e-6)`,
where positive and negative count the cleaned tokens in the respective
word sets. -/
theorem claim4_polarity_subjectivity_formula :
    ∀ (lex : Lexicon) (text : String),
      cleaned_words lex text ≠ [] → simple_sentence_tokenize text ≠ [] →
      (calculate_scores lex text)[2]? =
        some ((((cleaned_words lex text).countP
            (fun w => lex.positive.contains w) : ℚ) -
          ((cleaned_words lex text).countP
            (fun w => lex.negative.contains w) : ℚ)) /
          ((((cleaned_words lex text).countP
            (fun w => lex.positive.contains w) : ℚ) +
          ((cleaned_words lex text).countP
            (fun w => lex.negative.contains w) : ℚ)) + eps)) ∧
      (calculate_scores lex text)[3]? =
        some ((((cleaned_words lex text).countP
            (fun w => lex.positive.contains w) : ℚ) +
          ((cleaned_words lex text).countP
            (fun w => lex.negative.contains w) : ℚ)) /
          (((cleaned_words lex text).length : ℚ) + eps)) := by
  intro lex text h1 h2
  rw [calculate_scores_nondegenerate lex text h1 h2]
  exact ⟨rfl, rfl⟩

/-- Witness for C4 at a concrete lexicon and text. -/
theorem claim4_witness :
    (calculate_scores ⟨[], ["great"], ["bad"]⟩ "Hi")[2]? =
      some ((((cleaned_words ⟨[], ["great"], ["bad"]⟩ "Hi").countP
          (fun w => ["great"].contains w) : ℚ) -
        ((cleaned_words ⟨[], ["great"], ["bad"]⟩ "Hi").countP
          (fun w => ["bad"].contains w) : ℚ)) /
        ((((cleaned_words ⟨[], ["great"], ["bad"]⟩ "Hi").countP
          (fun w => ["great"].contains w) : ℚ) +
        ((cleaned_words ⟨[], ["great"], ["bad"]⟩ "Hi").countP
          (fun w => ["bad"].contains w) : ℚ)) + eps)) ∧
    (calculate_scores ⟨[], ["great"], ["bad"]⟩ "Hi")[3]? =
      some ((((cleaned_words ⟨[], ["great"], ["bad"]⟩ "Hi").countP
          (fun w => ["great"].contains w) : ℚ) +
        ((cleaned_words ⟨[], ["great"], ["bad"]⟩ "Hi").countP
          (fun w => ["bad"].contains w) : ℚ)) /
        (((cleaned_words ⟨[], ["great"], ["bad"]⟩ "Hi").length : ℚ) + eps)) :=
  claim4_polarity_subjectivity_formula ⟨[], ["great"], ["bad"]⟩ "Hi"
    (by decide) (by decide)

/-- C5: the polarity entry of the lexicon variant and the compound score
of the model variant (for non-negative probability masses) always lie in
the closed interval from -1 to 1. -/
theorem claim5_scores_bounded :
    (∀ (lex : Lexicon) (text : String) (q : ℚ),
      (calculate_scores lex text)[2]? = some q → -1 ≤ q ∧ q ≤ 1) ∧
    (∀ probs : Fin 5 → ℚ, (∀ i, 0 ≤ probs i) →
      -1 ≤ (get_bert_sentiment probs).2.2 ∧ (get_bert_sentiment probs).2.2 ≤ 1) := by
  constructor
  · intro lex text q hq
    unfold calculate_scores at hq
    by_cases h : cleaned_words lex text = [] ∨ simple_sentence_tokenize text = []
    · rw [if_pos h] at hq
      have h0 : (List.replicate 13 (0 : ℚ))[2]? = some 0 := rfl
      rw [h0] at hq
      obtain rfl : (0 : ℚ) = q := Option.some.inj hq
      norm_num
    · rw [if_neg h] at hq
      have h2 : (scores_vector lex text)[2]? =
          some ((((cleaned_words lex text).countP
              (fun w => lex.positive.contains w) : ℚ) -
            ((cleaned_words lex text).countP
              (fun w => lex.negative.contains w) : ℚ)) /
            ((((cleaned_words lex text).countP
              (fun w => lex.positive.contains w) : ℚ) +
            ((cleaned_words lex text).countP
              (fun w => lex.negative.contains w) : ℚ)) + eps)) := rfl
      rw [h2] at hq
      obtain rfl := (Option.some.inj hq).symm
      have hP : (0 : ℚ) ≤ ((cleaned_words lex text).countP
          (fun w => lex.positive.contains w) : ℚ) := Nat.cast_nonneg _
      have hN : (0 : ℚ) ≤ ((cleaned_words lex text).countP
          (fun w => lex.negative.contains w) : ℚ) := Nat.cast_nonneg _
      have he := eps_pos
      have hd : (0 : ℚ) < (((cleaned_words lex text).countP
          (fun w => lex.positive.contains w) : ℚ) +
        ((cleaned_words lex text).countP
          (fun w => lex.negative.contains w) : ℚ)) + eps := by linarith
      constructor
      · rw [le_div_iff₀ hd]
        linarith
      · rw [div_le_one hd]
        linarith
  · intro probs hp
    simp only [get_bert_sentiment]
    by_cases h : (probs 3 + probs 4) + (probs 0 + probs 1) + probs 2 = 0
    · rw [if_pos h]
      norm_num
    · rw [if_neg h]
      have h0 := hp 0
      have h1 := hp 1
      have h2 := hp 2
      have h3 := hp 3
      have h4 := hp 4
      have hd : (0 : ℚ) < (probs 3 + probs 4) + (probs 0 + probs 1) + probs 2 :=
        lt_of_le_of_ne (by linarith) (Ne.symm h)
      constructor
      · show -1 ≤ ((probs 3 + probs 4) - (probs 0 + probs 1)) /
          ((probs 3 + probs 4) + (probs 0 + probs 1) + probs 2)
        rw [le_div_iff₀ hd]
        linarith
      · show ((probs 3 + probs 4) - (probs 0 + probs 1)) /
          ((probs 3 + probs 4) + (probs 0 + probs 1) + probs 2) ≤ 1
        rw [div_le_one hd]
        linarith

/-- Witness for C5 at a concrete text and a concrete distribution. -/
theorem claim5_witness :
    ((-1 ≤ (0 : ℚ) ∧ (0 : ℚ) ≤ 1) ∧
      (-1 ≤ (get_bert_sentiment fun _ => 1 / 5).2.2 ∧
        (get_bert_sentiment fun _ => 1 / 5).2.2 ≤ 1)) :=
  ⟨claim5_scores_bounded.1 ⟨[], [], []⟩ "" 0 rfl,
    claim5_scores_bounded.2 (fun _ => 1 / 5) (fun _ => by norm_num)⟩

/-- C6 counterexample: on the input "a_b" the word tokenizer produces the
token "a_b", which contains an underscore and is therefore not an
alphanumeric string (Python `"a_b".isalnum()` is false), refuting the
claim that every token is a lowercase alphanumeric string. -/
theorem claim6_counterexample :
    ¬ ∀ t ∈ simple_word_tokenize "a_b",
      pyIsAlnum t = true ∧ ∀ c ∈ t.data, isUpperAZ c = false := by
  intro h
  exact absurd (h "a_b" (by decide)).1 (by decide)

/-- C6 amended: every token produced by the word tokenizer is a
non-empty string of word characters (lowercase letters, digits or
underscores) containing no uppercase letter. -/
theorem claim6_word_tokens_lowercase_word_chars :
    ∀ (text : String) (t : String), t ∈ simple_word_tokenize text →
      t ≠ "" ∧ ∀ c ∈ t.data, isWordChar c = true ∧ isUpperAZ c = false := by
  intro text t ht
  unfold simple_word_tokenize wordRuns at ht
  obtain ⟨l, hl, rfl⟩ := List.mem_map.mp ht
  have h := wordRunsGo_forall (fun c => isWordChar c = true ∧ isUpperAZ c = false)
    (text.data.map Char.toLower) []
    (fun c hc hw => ⟨hw, by
      obtain ⟨a, _, rfl⟩ := List.mem_map.mp hc
      exact isUpperAZ_toLower a⟩)
    (fun c hc => absurd hc (List.not_mem_nil c)) l hl
  refine ⟨fun he => h.1 (congrArg String.data he), fun c hc => h.2 c hc⟩

/-- Witness for the amended C6 at a concrete text. -/
theorem claim6_witness :
    ("ab" : String) ≠ "" ∧
      ∀ c ∈ ("ab" : String).data, isWordChar c = true ∧ isUpperAZ c = false :=
  claim6_word_tokens_lowercase_word_chars "ab" "ab" (by decide)

/-- C7: the model variant's remapping returns compound =
`(positive - negative) / (positive + negative + neutral)` when the
denominator is non-zero, returns all-zero scores on the zero-denominator
failure, and the assembled subjectivity entry is the absolute value of
the compound score. -/
theorem claim7_bert_remap :
    (∀ probs : Fin 5 → ℚ,
      (probs 3 + probs 4) + (probs 0 + probs 1) + probs 2 = 0 →
      get_bert_sentiment probs = (0, 0, 0)) ∧
    (∀ probs : Fin 5 → ℚ,
      (probs 3 + probs 4) + (probs 0 + probs 1) + probs 2 ≠ 0 →
      get_bert_sentiment probs =
        (probs 3 + probs 4, probs 0 + probs 1,
          ((probs 3 + probs 4) - (probs 0 + probs 1)) /
            ((probs 3 + probs 4) + (probs 0 + probs 1) + probs 2))) ∧
    (∀ (probsOf : String → Fin 5 → ℚ) (text : String),
      cleaned_words_bert text ≠ [] → simple_sentence_tokenize text ≠ [] →
      (calculate_scores_bert probsOf text)[3]? =
        some |(get_bert_sentiment (probsOf text)).2.2|) := by
  refine ⟨fun probs h => ?_, fun probs h => ?_, fun probsOf text h1 h2 => ?_⟩
  · simp only [get_bert_sentiment]
    rw [if_pos h]
  · simp only [get_bert_sentiment]
    rw [if_neg h]
  · rw [calculate_scores_bert_nondegenerate probsOf text h1 h2]
    rfl

/-- Witness for C7 at concrete distributions and a concrete text. -/
theorem claim7_witness :
    get_bert_sentiment (fun _ => 0) = (0, 0, 0) ∧
    get_bert_sentiment (fun _ => 1 / 5) =
      ((1 : ℚ) / 5 + 1 / 5, (1 : ℚ) / 5 + 1 / 5,
        ((1 : ℚ) / 5 + 1 / 5 - (1 / 5 + 1 / 5)) /
          ((1 : ℚ) / 5 + 1 / 5 + (1 / 5 + 1 / 5) + 1 / 5)) ∧
    (calculate_scores_bert (fun _ _ => 1 / 5) "Hi")[3]? =
      some |(get_bert_sentiment ((fun _ (_ : Fin 5) => (1 : ℚ) / 5) "Hi")).2.2| :=
  ⟨claim7_bert_remap.1 (fun _ => 0) (by norm_num),
    claim7_bert_remap.2.1 (fun _ => 1 / 5) (by norm_num),
    claim7_bert_remap.2.2 (fun _ _ => 1 / 5) "Hi" (by decide) (by decide)⟩

/-- C8: on the non-degenerate path, entries 4 and 7 of the score vector
are identical in both variants, both equal to the cleaned token count
divided by the sentence count. -/
theorem claim8_avg_sentence_length_duplicated :
    (∀ (lex : Lexicon) (text : String),
      cleaned_words lex text ≠ [] → simple_sentence_tokenize text ≠ [] →
      (calculate_scores lex text)[4]? = (calculate_scores lex text)[7]? ∧
      (calculate_scores lex text)[4]? =
        some (((cleaned_words lex text).length : ℚ) /
          ((simple_sentence_tokenize text).length : ℚ))) ∧
    (∀ (probsOf : String → Fin 5 → ℚ) (text : String),
      cleaned_words_bert text ≠ [] → simple_sentence_tokenize text ≠ [] →
      (calculate_scores_bert probsOf text)[4]? =
        (calculate_scores_bert probsOf text)[7]? ∧
      (calculate_scores_bert probsOf text)[4]? =
        some (((cleaned_words_bert text).length : ℚ) /
          ((simple_sentence_tokenize text).length : ℚ))) := by
  constructor
  · intro lex text h1 h2
    rw [calculate_scores_nondegenerate lex text h1 h2]
    exact ⟨rfl, rfl⟩
  · intro probsOf text h1 h2
    rw [calculate_scores_bert_nondegenerate probsOf text h1 h2]
    exact ⟨rfl, rfl⟩

/-- Witness for C8 at a concrete lexicon, distribution and text. -/
theorem claim8_witness :
    ((calculate_scores ⟨[], [], []⟩ "Hi")[4]? =
        (calculate_scores ⟨[], [], []⟩ "Hi")[7]? ∧
      (calculate_scores ⟨[], [], []⟩ "Hi")[4]? =
        some (((cleaned_words ⟨[], [], []⟩ "Hi").length : ℚ) /
          ((simple_sentence_tokenize "Hi").length : ℚ))) ∧
    ((calculate_scores_bert (fun _ _ => 1 / 5) "Hi")[4]? =
        (calculate_scores_bert (fun _ _ => 1 / 5) "Hi")[7]? ∧
      (calculate_scores_bert (fun _ _ => 1 / 5) "Hi")[4]? =
        some (((cleaned_words_bert "Hi").length : ℚ) /
          ((simple_sentence_tokenize "Hi").length : ℚ))) :=
  ⟨claim8_avg_sentence_length_duplicated.1 ⟨[], [], []⟩ "Hi"
      (by decide) (by decide),
    claim8_avg_sentence_length_duplicated.2 (fun _ _ => 1 / 5) "Hi"
      (by decide) (by decide)⟩

/-- C9: in the per-record loop, a record whose extraction yields the
empty document is emitted as its identifying columns followed by 13
nulls, and the loop processes every record independently: the batch
result has one row per record and a cons of records maps to a cons of
rows. -/
theorem claim9_failed_record_isolated :
    ∀ (score : String → List ℚ) (extract : String → String)
      (rs : List (String × String)),
      (process_records score extract rs).length = rs.length ∧
      (∀ (r : String × String) (rs2 : List (String × String)),
        process_records score extract (r :: rs2) =
          process_record score extract r :: process_records score extract rs2) ∧
      (∀ r : String × String, extract r.2 = "" →
        process_record score extract r = (r.1, r.2, List.replicate 13 none)) := by
  intro score extract rs
  refine ⟨List.length_map rs _, fun r rs2 => rfl, fun r h => ?_⟩
  unfold process_record
  rw [if_pos h]

/-- Witness for C9 at a concrete failing extractor. -/
theorem claim9_witness :
    process_record (fun _ => []) (fun _ => "") ("1", "u") =
      ("1", "u", List.replicate 13 none) :=
  (claim9_failed_record_isolated (fun _ => []) (fun _ => "") []).2.2
    ("1", "u") rfl

/-- C10: once the non-degeneracy guard has passed, every denominator used
by `calculate_scores` is strictly positive (token count, sentence count,
and the epsilon-padded sentiment denominators), and the result is the
normal-path score vector, never the fallback. -/
theorem claim10_denominators_positive :
    (∀ (lex : Lexicon) (text : String),
      cleaned_words lex text ≠ [] → simple_sentence_tokenize text ≠ [] →
      0 < ((cleaned_words lex text).length : ℚ) ∧
      0 < ((simple_sentence_tokenize text).length : ℚ) ∧
      0 < (((cleaned_words lex text).countP
          (fun w => lex.positive.contains w) : ℚ) +
        ((cleaned_words lex text).countP
          (fun w => lex.negative.contains w) : ℚ) + eps) ∧
      0 < (((cleaned_words lex text).length : ℚ) + eps) ∧
      calculate_scores lex text = scores_vector lex text) ∧
    (∀ (probsOf : String → Fin 5 → ℚ) (text : String),
      cleaned_words_bert text ≠ [] → simple_sentence_tokenize text ≠ [] →
      0 < ((cleaned_words_bert text).length : ℚ) ∧
      0 < ((simple_sentence_tokenize text).length : ℚ) ∧
      calculate_scores_bert probsOf text = scores_vector_bert probsOf text) := by
  constructor
  · intro lex text h1 h2
    have hcw : (0 : ℚ) < ((cleaned_words lex text).length : ℚ) := by
      exact_mod_cast List.length_pos.mpr h1
    have hs : (0 : ℚ) < ((simple_sentence_tokenize text).length : ℚ) := by
      exact_mod_cast List.length_pos.mpr h2
    have hP : (0 : ℚ) ≤ ((cleaned_words lex text).countP
        (fun w => lex.positive.contains w) : ℚ) := Nat.cast_nonneg _
    have hN : (0 : ℚ) ≤ ((cleaned_words lex text).countP
        (fun w => lex.negative.contains w) : ℚ) := Nat.cast_nonneg _
    have he := eps_pos
    exact ⟨hcw, hs, by linarith, by linarith,
      calculate_scores_nondegenerate lex text h1 h2⟩
  · intro probsOf text h1 h2
    have hcw : (0 : ℚ) < ((cleaned_words_bert text).length : ℚ) := by
      exact_mod_cast List.length_pos.mpr h1
    have hs : (0 : ℚ) < ((simple_sentence_tokenize text).length : ℚ) := by
      exact_mod_cast List.length_pos.mpr h2
    exact ⟨hcw, hs, calculate_scores_bert_nondegenerate probsOf text h1 h2⟩

/-- Witness for C10 at a concrete lexicon, distribution and text. -/
theorem claim10_witness :
    (0 < ((cleaned_words ⟨[], [], []⟩ "Hi").length : ℚ) ∧
      0 < ((simple_sentence_tokenize "Hi").length : ℚ) ∧
      0 < (((cleaned_words ⟨[], [], []⟩ "Hi").countP
          (fun w => ([] : List String).contains w) : ℚ) +
        ((cleaned_words ⟨[], [], []⟩ "Hi").countP
          (fun w => ([] : List String).contains w) : ℚ) + eps) ∧
      0 < (((cleaned_words ⟨[], [], []⟩ "Hi").length : ℚ) + eps) ∧
      calculate_scores ⟨[], [], []⟩ "Hi" = scores_vector ⟨[], [], []⟩ "Hi") ∧
    (0 < ((cleaned_words_bert "Hi").length : ℚ) ∧
      0 < ((simple_sentence_tokenize "Hi").length : ℚ) ∧
      calculate_scores_bert (fun _ _ => 1 / 5) "Hi" =
        scores_vector_bert (fun _ _ => 1 / 5) "Hi") :=
  ⟨claim10_denominators_positive.1 ⟨[], [], []⟩ "Hi" (by decide) (by decide),
    claim10_denominators_positive.2 (fun _ _ => 1 / 5) "Hi"
      (by decide) (by decide)⟩

end TextAnalysis
